import Mathlib

/-!
Shallow embedding of the CyberMorph Discovery / DLP / Sanitization pipeline
(`cybermorph_discovery.py`, `cybermorph_dlp.py`, `cybermorph_sanitization.py`,
`cybermorph_agent_installer.py`, `cybermorph.py`) together with theorems that
settle the frozen claims about it.

Conventions of the embedding:
* Python dicts are insertion-ordered association lists (`List (String × α)`);
  assignment `d[k] = v` is `dictInsert` (replace in place if the key exists,
  else append), lookup `d.get(k)` is `dictFind?`.
* External effects are oracles passed in as functions: the remote command
  channel is `String → Except String String` (`.error` models paramiko
  raising), the content-inspection service (presidio `AnalyzerEngine`) is
  `String → List AnFinding`, the random generator (`Faker`) is a draw stream
  `Nat → String` consumed through a counter, a file write that may raise is
  an `Except String Unit` value.
* `try/except` around a block is a `match` on the `Except` result of that
  block; `try/except` that merely skips one item is a `match` on the item's
  fallible read.
-/

set_option autoImplicit false

namespace Cybermorph

/-! ## Python-dict model -/

/-- Python dict assignment `d[k] = v`: replace the first (and in a real dict,
only) binding of `k` in place, else append at the end. -/
def dictInsert {α : Type} : List (String × α) → String → α → List (String × α)
  | [], k, v => [(k, v)]
  | (k', v') :: rest, k, v =>
    if k' == k then (k', v) :: rest else (k', v') :: dictInsert rest k v

/-- Python dict lookup `d.get(k)`. -/
def dictFind? {α : Type} : List (String × α) → String → Option α
  | [], _ => none
  | (k', v') :: rest, k => if k' == k then some v' else dictFind? rest k

theorem dictFind?_dictInsert_self {α : Type} (m : List (String × α)) (k : String) (v : α) :
    dictFind? (dictInsert m k v) k = some v := by
  induction m with
  | nil => simp [dictInsert, dictFind?]
  | cons p rest ih =>
    by_cases h : p.1 == k
    · simp [dictInsert, dictFind?, h]
    · simp [dictInsert, dictFind?, h, ih]

theorem dictFind?_dictInsert_ne {α : Type} (m : List (String × α)) (k' k : String) (v : α)
    (h : k' ≠ k) : dictFind? (dictInsert m k' v) k = dictFind? m k := by
  induction m with
  | nil => simp [dictInsert, dictFind?, h]
  | cons p rest ih =>
    by_cases hp : p.1 == k'
    · have : ¬ (p.1 == k) := by
        intro hk
        exact h (((beq_iff_eq (a := p.1) (b := k')).mp hp).symm.trans ((beq_iff_eq).mp hk))
      simp [dictInsert, dictFind?, hp, this]
    · by_cases hk : p.1 == k
      · simp [dictInsert, dictFind?, hp, hk]
      · simp [dictInsert, dictFind?, hp, hk, ih]

/-! ## Discovery (`cybermorph_discovery.py`) -/

/-- A row of osquery `--json` output: a field-named record. -/
abbrev Row := List (String × String)

/-- The remote SSH-like command channel, `self.target.exec_command`; `.error`
models the call raising. -/
abbrev Channel := String → Except String String

/-- Database catalog shape used by the DLP stage: database name → tables. -/
abbrev Catalog := List (String × List String)

structure NetDescriptor where
  status : String
  duration : String
  output_files : List String
deriving DecidableEq

/-- The descriptor stored by `capture_network_traffic`. -/
def networkBaseline : NetDescriptor :=
  { status := "capturing", duration := "1 hour",
    output_files := ["conn.log", "http.log", "dns.log", "ssl.log", "files.log"] }

/-- `self.discoveries`: the typed shape of the discovery dict. The literal
`{}` returned by `discover_all` on an exception is `Inventory.empty`. -/
structure Inventory where
  files : List Row := []
  users : List Row := []
  services : List Row := []
  databases : List (String × Catalog) := []
  cron_jobs : List Row := []
  env_vars : List Row := []
  network_traffic : Option NetDescriptor := none
deriving DecidableEq

def Inventory.empty : Inventory := {}

def files_query : String :=
  "SELECT path, filename, size, mode, uid, gid, atime, mtime, ctime FROM file WHERE directory IN (/etc, /home, /opt, /var, /root)"

def users_query : String := "SELECT uid, username, gid, shell, directory FROM users"

def services_query : String := "SELECT name, path, state FROM services"

def crontab_query : String := "SELECT * FROM crontab"

def process_envs_query : String := "SELECT * FROM process_envs"

/-- `execute_osquery`: run `osqueryi --json "<query>"` on the channel; a
`json.JSONDecodeError` (modelled by the parser returning `none`) is caught,
logged and turned into `[]`; a channel failure propagates. -/
def execute_osquery (ch : Channel) (parseRows : String → Option (List Row))
    (query : String) : Except String (List Row) := do
  let output ← ch ("osqueryi --json " ++ query)
  match parseRows output with
  | some rows => pure rows
  | none => pure []

def mysql_cmd : String := "mysql -u root -e SHOW DATABASES --json"

def postgresql_cmd : String := "psql -U postgres -l --json"

def mongodb_cmd : String := "mongo --eval db.adminCommand(listDatabases) --quiet"

/-- `discover_mysql`: channel failure propagates, unparseable output is caught
inside and becomes `{}`. -/
def discover_mysql (ch : Channel) (parseCat : String → Option Catalog) :
    Except String Catalog := do
  let out ← ch mysql_cmd
  pure ((parseCat out).getD [])

def discover_postgresql (ch : Channel) (parseCat : String → Option Catalog) :
    Except String Catalog := do
  let out ← ch postgresql_cmd
  pure ((parseCat out).getD [])

def discover_mongodb (ch : Channel) (parseCat : String → Option Catalog) :
    Except String Catalog := do
  let out ← ch mongodb_cmd
  pure ((parseCat out).getD [])

/-- `discover_databases`: each engine probe runs in its own `try/except`; a
failing probe is logged and skipped, the others are aggregated unchanged. -/
def discover_databases (ch : Channel) (parseCat : String → Option Catalog) :
    List (String × Catalog) :=
  let d0 : List (String × Catalog) := []
  let d1 := match discover_mysql ch parseCat with
    | .ok c => dictInsert d0 "mysql" c
    | .error _ => d0
  let d2 := match discover_postgresql ch parseCat with
    | .ok c => dictInsert d1 "postgresql" c
    | .error _ => d1
  match discover_mongodb ch parseCat with
  | .ok c => dictInsert d2 "mongodb" c
  | .error _ => d2

/-- The body of `discover_all` (inside its `try`): the seven category
collections in source order, then `save_discoveries` (a fallible file write,
passed as an oracle). -/
def discover_body (ch : Channel) (parseRows : String → Option (List Row))
    (parseCat : String → Option Catalog) (save : Except String Unit) :
    Except String Inventory :=
  match execute_osquery ch parseRows files_query with
  | .error e => .error e
  | .ok files =>
  match execute_osquery ch parseRows users_query with
  | .error e => .error e
  | .ok users =>
  match execute_osquery ch parseRows services_query with
  | .error e => .error e
  | .ok services =>
  let databases := discover_databases ch parseCat
  match execute_osquery ch parseRows crontab_query with
  | .error e => .error e
  | .ok cron_jobs =>
  match execute_osquery ch parseRows process_envs_query with
  | .error e => .error e
  | .ok env_vars =>
  match save with
  | .error e => .error e
  | .ok _ =>
    .ok { files := files, users := users, services := services,
          databases := databases, cron_jobs := cron_jobs, env_vars := env_vars,
          network_traffic := some networkBaseline }

/-- `discover_all`: the catch-all `except` turns any exception into `{}`. -/
def discover_all (ch : Channel) (parseRows : String → Option (List Row))
    (parseCat : String → Option Catalog) (save : Except String Unit) : Inventory :=
  match discover_body ch parseRows parseCat save with
  | .ok inv => inv
  | .error _ => Inventory.empty

/-! ## DLP scanning (`cybermorph_dlp.py`) -/

/-- One result of the content-inspection service (`presidio` analyzer):
`{entity_type, start, end, score}`; `end` is a Lean keyword, so it is named
`finish`. The confidence score lives in `ℚ`. -/
structure AnFinding where
  entity_type : String
  start : Nat
  finish : Nat
  score : ℚ
deriving DecidableEq

/-- The content-inspection service, `self.analyzer.analyze(text, language)`,
consumed as a black box. -/
abbrev Analyzer := String → List AnFinding

/-- The shape of one value of `self.dlp_findings`: a dict with the optional
keys `findings`, `file_size`, `type`, `reason`, `sensitivity` (the source
stores different key subsets for file entries, env-name entries and env-value
entries). `type` is a Lean keyword, so it is named `ty`. -/
structure DlpRecord where
  findings : Option (List AnFinding) := none
  file_size : Option Nat := none
  ty : Option String := none
  reason : Option String := none
  sensitivity : Option String := none
deriving DecidableEq

/-- `scan_files`: for every discovered file row, read it (a failing read is
caught per file and skipped), analyze its content, and record an entry only
when findings are present. The filesystem is `String → Option String`. -/
def scan_files (analyze : Analyzer) (fs : String → Option String)
    (files : List Row) (acc : List (String × DlpRecord)) : List (String × DlpRecord) :=
  files.foldl (fun dlp file_info =>
    match dictFind? file_info "path" with
    | none => dlp
    | some file_path =>
      match fs file_path with
      | none => dlp
      | some content =>
        let fnds := analyze content
        if fnds.isEmpty then dlp
        else
          dictInsert dlp file_path
            { findings := some fnds, file_size := some content.length }) acc

/-- `query_mysql`: the source is a stub returning `[]`. -/
def query_mysql (_db_name _table_name : String) : List Row := []

/-- `query_postgresql`: the source is a stub returning `[]`. -/
def query_postgresql (_db_name _table_name : String) : List Row := []

/-- `query_mongodb`: the source is a stub returning `[]`. -/
def query_mongodb (_db_name _table_name : String) : List Row := []

/-- `scan_databases`: iterate engine → database → table, query the table
(the query helpers are stubs returning `[]`), analyze each record, and extend
the `findings` list of the `engine.db.table` entry. -/
def scan_databases (analyze : Analyzer) (dbs : List (String × Catalog))
    (acc : List (String × DlpRecord)) : List (String × DlpRecord) :=
  dbs.foldl (fun dlp eng =>
    eng.2.foldl (fun dlp db =>
      db.2.foldl (fun dlp table_name =>
        let records :=
          if eng.1 == "mysql" then query_mysql db.1 table_name
          else if eng.1 == "postgresql" then query_postgresql db.1 table_name
          else if eng.1 == "mongodb" then query_mongodb db.1 table_name
          else []
        records.foldl (fun dlp record =>
          let fnds := analyze (toString record)
          if fnds.isEmpty then dlp
          else
            let key := eng.1 ++ "." ++ db.1 ++ "." ++ table_name
            let cur := (dictFind? dlp key).getD { findings := some [] }
            dictInsert dlp key
              { cur with findings := some ((cur.findings.getD []) ++ fnds) }) dlp)
        dlp) dlp) acc

/-- The fixed keyword set of the name-based heuristic. -/
def sensitive_keywords : List String :=
  ["PASSWORD", "KEY", "TOKEN", "SECRET", "CREDENTIAL"]

/-- Python substring containment `needle in haystack` on char lists. -/
def containsSub (needle : List Char) : List Char → Bool
  | [] => needle.isEmpty
  | c :: rest => needle.isPrefixOf (c :: rest) || containsSub needle rest

/-- `any(keyword in var_name.upper() for keyword in [...])`: case-insensitive
substring match of the keyword set against the variable name (`upper()`
mapped over the characters). -/
def nameSuggestsSensitive (var_name : String) : Bool :=
  sensitive_keywords.any (fun kw => containsSub kw.toList (var_name.toList.map Char.toUpper))

/-- The record stored by the name-based heuristic branch. -/
def credentialNameRecord : DlpRecord :=
  { ty := some "CREDENTIAL", reason := some "Sensitive variable name" }

/-- The body of the `scan_environment_variables` loop for one env-var row:
first the name-based heuristic stores a CREDENTIAL record under `ENV:<name>`,
then the value is analyzed and, when findings are present, a findings record
is stored under the same key (overwriting the heuristic record, since Python
dict assignment replaces). -/
def scan_env_step (analyze : Analyzer) (dlp : List (String × DlpRecord))
    (env_var : Row) : List (String × DlpRecord) :=
  let var_name := (dictFind? env_var "name").getD ""
  let var_value := (dictFind? env_var "value").getD ""
  let dlp1 :=
    if nameSuggestsSensitive var_name then
      dictInsert dlp ("ENV:" ++ var_name) credentialNameRecord
    else dlp
  let fnds := analyze var_value
  if fnds.isEmpty then dlp1
  else dictInsert dlp1 ("ENV:" ++ var_name) { findings := some fnds }

/-- `scan_environment_variables`: the loop over all env-var rows. -/
def scan_environment_variables (analyze : Analyzer) (env_vars : List Row)
    (acc : List (String × DlpRecord)) : List (String × DlpRecord) :=
  env_vars.foldl (scan_env_step analyze) acc

/-- `t in ['CREDENTIAL', 'PASSWORD', 'API_KEY']`: the credential-class kinds. -/
def isCredKind (t : String) : Bool := ["CREDENTIAL", "PASSWORD", "API_KEY"].contains t

/-- `t in ['PERSON', 'EMAIL', 'PHONE']`: the direct-identifier kinds. -/
def isDirectIdKind (t : String) : Bool := ["PERSON", "EMAIL", "PHONE"].contains t

/-- `t in ['LOCATION', 'ORGANIZATION']`: the indirect-identifier kinds. -/
def isIndirectIdKind (t : String) : Bool := ["LOCATION", "ORGANIZATION"].contains t

/-- The sensitivity chain of `classify_findings`, applied to the entity types
of one record's findings. -/
def sensitivity_of (entity_types : List String) : String :=
  if entity_types.any isCredKind then "CRITICAL"
  else if entity_types.any isDirectIdKind then "HIGH"
  else if entity_types.any isIndirectIdKind then "MEDIUM"
  else "LOW"

/-- `classify_findings`: cache a sensitivity level on every entry, derived
from `finding.get('findings', [])`. -/
def classify_findings (dlp : List (String × DlpRecord)) : List (String × DlpRecord) :=
  dlp.map (fun e =>
    (e.1, { e.2 with
            sensitivity := some (sensitivity_of (((e.2).findings.getD []).map (·.entity_type))) }))

/-- The body of `scan_all` (inside its `try`): files, databases, environment
variables, classification, then `save_findings` (a fallible file write). -/
def scan_body (analyze : Analyzer) (fs : String → Option String)
    (save : Except String Unit) (discoveries : Inventory) :
    Except String (List (String × DlpRecord)) :=
  let d1 := scan_files analyze fs discoveries.files []
  let d2 := scan_databases analyze discoveries.databases d1
  let d3 := scan_environment_variables analyze discoveries.env_vars d2
  let d4 := classify_findings d3
  match save with
  | .error e => .error e
  | .ok _ => .ok d4

/-- `scan_all`: the catch-all `except` turns any exception into `{}`. -/
def scan_all (analyze : Analyzer) (fs : String → Option String)
    (save : Except String Unit) (discoveries : Inventory) : List (String × DlpRecord) :=
  match scan_body analyze fs save discoveries with
  | .ok d => d
  | .error _ => []

/-! ## Sanitization (`cybermorph_sanitization.py`) -/

/-- The mutable state of `AutoSanitizationEngine` together with the target
filesystem it reads and writes: `self.discoveries` (never written by the
engine), `self.synthetic_data_map`, the Faker draw counter, and the
filesystem contents. -/
structure SanState where
  discoveries : Inventory
  fs : String → Option String
  synthetic_data_map : List (String × String)
  faker_ctr : Nat

/-- `generate_synthetic_replacement`: dispatch on the entity type; every call
consumes exactly one draw of the Faker stream `faker`. -/
def generate_synthetic_replacement (faker : Nat → String) (n : Nat)
    (entity_type : String) : String :=
  if entity_type == "PERSON" then faker n
  else if entity_type == "EMAIL" then faker n
  else if entity_type == "PHONE" then faker n
  else if entity_type == "CREDENTIAL" || entity_type == "PASSWORD" then faker n
  else if entity_type == "API_KEY" then "sk_" ++ (faker n).take 32
  else if entity_type == "CREDIT_CARD" then faker n
  else if entity_type == "SSN" then faker n
  else "SYNTHETIC_" ++ entity_type ++ "_" ++ faker n

/-- The inner loop of `sanitize_files` over one file's findings:
`self.synthetic_data_map[entity_type] = synthetic`, a fresh draw per finding. -/
def sanitize_file_findings (faker : Nat → String) (fnds : List AnFinding)
    (st : SanState) : SanState :=
  fnds.foldl (fun st f =>
    let synthetic := generate_synthetic_replacement faker st.faker_ctr f.entity_type
    { st with
      synthetic_data_map := dictInsert st.synthetic_data_map f.entity_type synthetic,
      faker_ctr := st.faker_ctr + 1 }) st

/-- `s.startswith(pre)`, computed over the character lists. -/
def strStartsWith (s pre : String) : Bool :=
  pre.toList.isPrefixOf s.toList

/-- `'.' in file_path.split('/')[-1]`: whether the part after the last slash
contains a dot, computed over the character list. -/
def basenameHasDot (p : String) : Bool :=
  (p.toList.reverse.takeWhile (fun c => !(c == '/'))).any (fun c => c == '.')

/-- The body of the `sanitize_files` loop for one dlp entry: when the key is
not `ENV:`-prefixed and its basename has no dot, read the file (a failing
read is caught and the entry skipped), record a synthetic replacement per
finding keyed by entity type, and write the (unmodified) content back. -/
def sanitize_files_step (faker : Nat → String) (st : SanState)
    (entry : String × DlpRecord) : SanState :=
  if !(strStartsWith entry.1 "ENV:") && !(basenameHasDot entry.1) then
    match st.fs entry.1 with
    | none => st
    | some content =>
      let st1 := sanitize_file_findings faker ((entry.2).findings.getD []) st
      { st1 with fs := fun p => if p == entry.1 then some content else st1.fs p }
  else st

/-- `sanitize_files`: the loop over all dlp entries. -/
def sanitize_files (faker : Nat → String) (dlp_findings : List (String × DlpRecord))
    (st : SanState) : SanState :=
  dlp_findings.foldl (sanitize_files_step faker) st

/-- The body of the `sanitize_environment_variables` loop for one dlp entry:
for an `ENV:`-prefixed key, `self.synthetic_data_map[var_name] = synthetic`
where the entity type is `finding.get('type', 'UNKNOWN')`. -/
def sanitize_env_step (faker : Nat → String) (st : SanState)
    (entry : String × DlpRecord) : SanState :=
  if strStartsWith entry.1 "ENV:" then
    let var_name := entry.1.drop 4
    let entity_type := (entry.2).ty.getD "UNKNOWN"
    let synthetic := generate_synthetic_replacement faker st.faker_ctr entity_type
    { st with
      synthetic_data_map := dictInsert st.synthetic_data_map var_name synthetic,
      faker_ctr := st.faker_ctr + 1 }
  else st

/-- `sanitize_environment_variables`: the loop over all dlp entries. -/
def sanitize_environment_variables (faker : Nat → String)
    (dlp_findings : List (String × DlpRecord)) (st : SanState) : SanState :=
  dlp_findings.foldl (sanitize_env_step faker) st

/-- `verify_sanitization`: re-analyze every discovered file; a nonempty result
only appends a warning line; a failing dict access or file read falls into a
bare `except: pass`. The function has no failure channel at all — it returns
only the warning log. -/
def verify_sanitization (analyze : Analyzer) (files : List Row)
    (fs : String → Option String) : List String :=
  files.foldl (fun warnings file_row =>
    match dictFind? file_row "path" with
    | none => warnings
    | some path =>
      match fs path with
      | none => warnings
      | some content =>
        let fnds := analyze content
        if fnds.isEmpty then warnings
        else
          warnings ++ ["Still found " ++ toString fnds.length ++ " findings in " ++ path]) []

/-- The body of `sanitize_all` inside its `try`: files, databases (a `pass`),
environment variables, verification (which cannot raise), then
`save_synthetic_data_map` (a fallible file write). On success the synthetic
map is returned; the catch-all `except` turns any exception into `{}`. -/
def sanitize_all (faker : Nat → String) (analyze : Analyzer)
    (dlp_findings : List (String × DlpRecord)) (save : Except String Unit)
    (st : SanState) : List (String × String) :=
  let st1 := sanitize_files faker dlp_findings st
  let st2 := sanitize_environment_variables faker dlp_findings st1
  let _warnings := verify_sanitization analyze st2.discoveries.files st2.fs
  match save with
  | .ok _ => st2.synthetic_data_map
  | .error _ => []

/-! ## Agent readiness poll (`cybermorph_agent_installer.py`) -/

def max_retries : Nat := 30

def poll_interval : Nat := 10

/-- One round of `verify_agents_running`: every agent's check function runs
and the results are conjoined. The liveness of each agent may vary with the
round number. -/
def all_agents_running (agents : List (Nat → Bool)) (round : Nat) : Bool :=
  agents.all (fun check => check round)

/-- The `while retry_count < max_retries` loop of `verify_agents_running`,
by fuel (the number of remaining rounds). The second and third arguments are
the current round number and the elapsed time in seconds; on success it
returns `(round, elapsed)` at the successful check, after the loop it raises
(`.error`) carrying `(rounds performed, elapsed)` — `time.sleep(10)` runs
after every failed check, including the last one. -/
def verify_agents_loop (live : Nat → Bool) : Nat → Nat → Nat → Except (Nat × Nat) (Nat × Nat)
  | 0, round, elapsed => .error (round, elapsed)
  | fuel + 1, round, elapsed =>
    if live round then .ok (round, elapsed)
    else verify_agents_loop live fuel (round + 1) (elapsed + poll_interval)

/-- `verify_agents_running`: poll the three agents up to `max_retries` rounds,
`poll_interval` seconds apart. -/
def verify_agents_running (agents : List (Nat → Bool)) : Except (Nat × Nat) (Nat × Nat) :=
  verify_agents_loop (all_agents_running agents) max_retries 0 0

/-! ## CLI entry point (`cybermorph.py`) -/

def stage_names : List String :=
  ["initialization", "agent_installation", "discovery", "dlp", "sanitization", "provisioning"]

/-- `main`: validate, install agents, then run the three engine drivers and
the provisioning tail. Returns the exit code together with the list of stages
that were reached. The two leading stages gate the run with `return 1`; the
three engine drivers are the catch-all functions defined above, so their
internal failures never reach `main`. -/
def main (validate_ok install_ok : Bool) (ch : Channel)
    (parseRows : String → Option (List Row)) (parseCat : String → Option Catalog)
    (saveDisc : Except String Unit) (analyze : Analyzer)
    (fs : String → Option String) (saveDlp : Except String Unit)
    (faker : Nat → String) (saveSan : Except String Unit) : Nat × List String :=
  if !validate_ok then (1, stage_names.take 1)
  else if !install_ok then (1, stage_names.take 2)
  else
    let discoveries := discover_all ch parseRows parseCat saveDisc
    let dlp_findings := scan_all analyze fs saveDlp discoveries
    let _synthetic_data_map :=
      sanitize_all faker analyze dlp_findings saveSan
        { discoveries := discoveries, fs := fs, synthetic_data_map := [], faker_ctr := 0 }
    (0, stage_names)

/-! ## The SensitivityLevel order (spec side, for C8) -/

/-- The ordered enum `{LOW, MEDIUM, HIGH, CRITICAL}` of the data model. -/
inductive Severity where
  | low
  | medium
  | high
  | critical
deriving DecidableEq

def Severity.rank : Severity → Nat
  | .low => 0
  | .medium => 1
  | .high => 2
  | .critical => 3

/-- The maximum of two severities in the `rank` order. -/
def Severity.maxS (a b : Severity) : Severity :=
  if Severity.rank b ≤ Severity.rank a then a else b

def Severity.label : Severity → String
  | .low => "LOW"
  | .medium => "MEDIUM"
  | .high => "HIGH"
  | .critical => "CRITICAL"

/-- The severity of a single entity kind: credential-class kinds are CRITICAL,
direct-identifier kinds HIGH, indirect-identifier kinds MEDIUM, anything else
LOW. -/
def kindSeverity (t : String) : Severity :=
  if isCredKind t then .critical
  else if isDirectIdKind t then .high
  else if isIndirectIdKind t then .medium
  else .low

/-- The maximum severity over a list of entity kinds (LOW for the empty
list). -/
def maxSeverity (ts : List String) : Severity :=
  ts.foldr (fun t acc => Severity.maxS (kindSeverity t) acc) .low

theorem maxSeverity_nil : maxSeverity [] = .low := rfl

theorem maxSeverity_cons (t : String) (ts : List String) :
    maxSeverity (t :: ts) = Severity.maxS (kindSeverity t) (maxSeverity ts) := rfl

/-- The maximum severity over a kind list coincides with the any-chain shape
used by the source. -/
theorem maxSeverity_chain (ts : List String) :
    maxSeverity ts =
      (if ts.any isCredKind then .critical
       else if ts.any isDirectIdKind then .high
       else if ts.any isIndirectIdKind then .medium
       else .low) := by
  induction ts with
  | nil => rfl
  | cons t ts ih =>
    rw [maxSeverity_cons, ih]
    by_cases h1 : isCredKind t <;> by_cases h2 : isDirectIdKind t <;>
      by_cases h3 : isIndirectIdKind t <;>
      by_cases c1 : ts.any isCredKind <;> by_cases c2 : ts.any isDirectIdKind <;>
      by_cases c3 : ts.any isIndirectIdKind <;>
      simp [kindSeverity, Severity.maxS, Severity.rank, List.any_cons,
        h1, h2, h3, c1, c2, c3]

/-- The sensitivity string computed by the source equals the label of the
maximum severity of the entity kinds. -/
theorem sensitivity_of_eq_maxSeverity (ts : List String) :
    sensitivity_of ts = Severity.label (maxSeverity ts) := by
  rw [maxSeverity_chain]
  by_cases c1 : ts.any isCredKind <;> by_cases c2 : ts.any isDirectIdKind <;>
    by_cases c3 : ts.any isIndirectIdKind <;>
    simp [sensitivity_of, Severity.label, c1, c2, c3]

/-- C8: for every item in the findings set, the cached sensitivity level
equals the maximum severity over the item's findings' entity kinds —
CRITICAL if any finding has a credential-class kind (CREDENTIAL, PASSWORD,
API_KEY), else HIGH if any has a direct-identifier kind (PERSON, EMAIL,
PHONE), else MEDIUM if any has an indirect-identifier kind (LOCATION,
ORGANIZATION), else LOW. -/
theorem classify_findings_max_severity (dlp : List (String × DlpRecord)) :
    classify_findings dlp = dlp.map (fun e => (e.1,
      { e.2 with sensitivity := some (Severity.label (maxSeverity (((e.2).findings.getD []).map (·.entity_type)))) })) := by
  unfold classify_findings
  simp [sensitivity_of_eq_maxSeverity]

/-! ## Theorems about the readiness poll (C9) -/

/-- If liveness fails on every one of the next `fuel` rounds, the loop raises
after exactly `fuel` further checks with `poll_interval * fuel` further
seconds elapsed. -/
theorem verify_agents_loop_timeout (live : Nat → Bool) (fuel : Nat) :
    ∀ round elapsed : Nat, (∀ i, i < fuel → live (round + i) = false) →
      verify_agents_loop live fuel round elapsed =
        .error (round + fuel, elapsed + poll_interval * fuel) := by
  induction fuel with
  | zero => intro round elapsed _; simp [verify_agents_loop]
  | succ n ih =>
    intro round elapsed h
    have h0 : live round = false := by simpa using h 0 (Nat.succ_pos n)
    have hrec := ih (round + 1) (elapsed + poll_interval) (fun i hi => by
      have : round + 1 + i = round + (i + 1) := by omega
      rw [this]
      exact h (i + 1) (by omega))
    simp only [verify_agents_loop, h0, Bool.false_eq_true, if_false, hrec]
    have e1 : round + 1 + n = round + (n + 1) := by omega
    have e2 : elapsed + poll_interval + poll_interval * n = elapsed + poll_interval * (n + 1) := by
      simp [poll_interval]; omega
    rw [e1, e2]

/-- If round `k` is the first live round and the loop has more than `k`
rounds of fuel left, it returns success at round `k`, with
`poll_interval * k` further seconds elapsed. -/
theorem verify_agents_loop_first_success (live : Nat → Bool) (k : Nat) :
    ∀ fuel round elapsed : Nat, k < fuel → live (round + k) = true →
      (∀ i, i < k → live (round + i) = false) →
      verify_agents_loop live fuel round elapsed =
        .ok (round + k, elapsed + poll_interval * k) := by
  induction k with
  | zero =>
    intro fuel round elapsed hk hlive _
    match fuel, hk with
    | n + 1, _ =>
      have h0 : live round = true := by simpa using hlive
      simp [verify_agents_loop, h0]
  | succ k ih =>
    intro fuel round elapsed hk hlive hbefore
    match fuel, hk with
    | n + 1, hk =>
      have h0 : live round = false := by simpa using hbefore 0 (Nat.succ_pos k)
      have hl : live (round + 1 + k) = true := by
        have : round + 1 + k = round + (k + 1) := by omega
        rw [this]; exact hlive
      have hb : ∀ i, i < k → live (round + 1 + i) = false := fun i hi => by
        have : round + 1 + i = round + (i + 1) := by omega
        rw [this]; exact hbefore (i + 1) (by omega)
      have hrec := ih n (round + 1) (elapsed + poll_interval) (by omega) hl hb
      simp only [verify_agents_loop, h0, Bool.false_eq_true, if_false, hrec]
      have e1 : round + 1 + k = round + (k + 1) := by omega
      have e2 : elapsed + poll_interval + poll_interval * k = elapsed + poll_interval * (k + 1) := by
        simp [poll_interval]; omega
      rw [e1, e2]

/-- C9: the agent-readiness poll is bounded. If some expected agent never
becomes live, the check performs exactly `max_retries = 30` rounds at the
fixed `poll_interval = 10`-second interval and then raises
(carrying the 30 rounds performed and the `30 * 10 = 300` seconds elapsed —
never earlier and never unboundedly); if all agents are live at some round,
it returns success at the first such round. -/
theorem verify_agents_running_bounded (agents : List (Nat → Bool)) :
    ((∀ r, r < max_retries → all_agents_running agents r = false) →
      verify_agents_running agents = .error (max_retries, max_retries * poll_interval)) ∧
    (∀ k, k < max_retries → all_agents_running agents k = true →
      (∀ i, i < k → all_agents_running agents i = false) →
      verify_agents_running agents = .ok (k, poll_interval * k)) := by
  constructor
  · intro h
    have := verify_agents_loop_timeout (all_agents_running agents) max_retries 0 0
      (fun i hi => by simpa using h i hi)
    simpa [verify_agents_running, Nat.mul_comm] using this
  · intro k hk hl hb
    have := verify_agents_loop_first_success (all_agents_running agents) k max_retries 0 0
      hk (by simpa using hl) (fun i hi => by simpa using hb i hi)
    simpa [verify_agents_running] using this

/-- Witness for C9 at concrete agents: one permanently dead agent makes the
poll raise at exactly (30 rounds, 300 seconds); agents that are all live
from round 2 on make it return at round 2, 20 seconds in. -/
theorem verify_agents_running_bounded_witness :
    verify_agents_running [fun _ => false, fun _ => true] = .error (30, 300) ∧
    verify_agents_running [fun r => decide (2 ≤ r), fun _ => true] = .ok (2, 20) := by
  constructor
  · exact (verify_agents_running_bounded [fun _ => false, fun _ => true]).1 (by decide)
  · exact (verify_agents_running_bounded [fun r => decide (2 ≤ r), fun _ => true]).2 2
      (by decide) (by decide) (by decide)

/-! ## Theorems about database discovery (C6) -/

/-- C6: each engine probe is isolated. Whatever the other probes do, an
engine whose probe succeeds appears in the `databases` map with exactly its
probed catalog, and an engine whose probe raises is simply absent — one
engine's failure never blocks the others. -/
theorem discover_databases_engine_isolation (ch : Channel)
    (parseCat : String → Option Catalog) :
    (∀ c, discover_mysql ch parseCat = .ok c →
      dictFind? (discover_databases ch parseCat) "mysql" = some c) ∧
    (∀ c, discover_postgresql ch parseCat = .ok c →
      dictFind? (discover_databases ch parseCat) "postgresql" = some c) ∧
    (∀ c, discover_mongodb ch parseCat = .ok c →
      dictFind? (discover_databases ch parseCat) "mongodb" = some c) ∧
    (∀ e, discover_mysql ch parseCat = .error e →
      dictFind? (discover_databases ch parseCat) "mysql" = none) ∧
    (∀ e, discover_postgresql ch parseCat = .error e →
      dictFind? (discover_databases ch parseCat) "postgresql" = none) ∧
    (∀ e, discover_mongodb ch parseCat = .error e →
      dictFind? (discover_databases ch parseCat) "mongodb" = none) := by
  unfold discover_databases
  cases hm : discover_mysql ch parseCat <;>
    cases hp : discover_postgresql ch parseCat <;>
    cases hg : discover_mongodb ch parseCat <;>
    refine ⟨fun c hc => ?_, fun c hc => ?_, fun c hc => ?_,
      fun e he => ?_, fun e he => ?_, fun e he => ?_⟩ <;>
    simp_all [dictInsert, dictFind?]

/-- Witness for C6: a channel on which the MySQL probe raises while the
PostgreSQL and MongoDB probes succeed; the successful engines are present
with their catalogs, the failing one is absent. -/
theorem discover_databases_engine_isolation_witness :
    let ch : Channel := fun cmd =>
      if cmd == mysql_cmd then .error "connection refused" else .ok "out"
    let parseCat : String → Option Catalog := fun _ => some [("appdb", ["users"])]
    dictFind? (discover_databases ch parseCat) "postgresql" = some [("appdb", ["users"])] ∧
    dictFind? (discover_databases ch parseCat) "mongodb" = some [("appdb", ["users"])] ∧
    dictFind? (discover_databases ch parseCat) "mysql" = none := by
  refine ⟨?_, ?_, ?_⟩
  · exact (discover_databases_engine_isolation _ _).2.1 _ (by rfl)
  · exact (discover_databases_engine_isolation _ _).2.2.1 _ (by rfl)
  · exact (discover_databases_engine_isolation _ _).2.2.2.1 "connection refused" (by rfl)

/-! ## Theorems about inventory collection (C7) -/

/-- A category query whose output the JSON parser rejects is caught inside
`execute_osquery` and recorded as the empty row list. -/
theorem execute_osquery_parse_failure (ch : Channel)
    (parseRows : String → Option (List Row)) (query out : String)
    (hch : ch ("osqueryi --json " ++ query) = .ok out)
    (hp : parseRows out = none) :
    execute_osquery ch parseRows query = .ok [] := by
  simp [execute_osquery, hch, hp, bind, Except.bind, pure, Except.pure]

/-- C7: when an individual inventory category query fails during collection
(its osquery output does not parse), that category is recorded as empty and
the collection continues — every other category keeps its own result, the
network baseline is registered and the blueprint is saved; the failure does
not abort the whole collection. Shown here with the `users` category as the
failing one. -/
theorem discover_all_category_failure_isolated (ch : Channel)
    (parseRows : String → Option (List Row)) (parseCat : String → Option Catalog)
    (save : Except String Unit) (fr sr cr er : List Row) (uout : String)
    (h1 : execute_osquery ch parseRows files_query = .ok fr)
    (h2 : ch ("osqueryi --json " ++ users_query) = .ok uout)
    (h2p : parseRows uout = none)
    (h3 : execute_osquery ch parseRows services_query = .ok sr)
    (h4 : execute_osquery ch parseRows crontab_query = .ok cr)
    (h5 : execute_osquery ch parseRows process_envs_query = .ok er)
    (hsave : save = .ok ()) :
    discover_all ch parseRows parseCat save =
      { files := fr, users := [], services := sr,
        databases := discover_databases ch parseCat, cron_jobs := cr, env_vars := er,
        network_traffic := some networkBaseline } := by
  have hu : execute_osquery ch parseRows users_query = .ok [] :=
    execute_osquery_parse_failure ch parseRows users_query uout h2 h2p
  simp [discover_all, discover_body, h1, hu, h3, h4, h5, hsave]

/-- Witness for C7: a concrete channel whose `users` query yields unparseable
output while every other category parses; the inventory records `users` as
empty and keeps the other categories. -/
theorem discover_all_category_failure_isolated_witness :
    let ch : Channel := fun cmd =>
      if cmd == "osqueryi --json " ++ users_query then .ok "oops not json"
      else if cmd == "osqueryi --json " ++ files_query then .ok "FILES"
      else .ok "EMPTY"
    let parseRows : String → Option (List Row) := fun s =>
      if s == "FILES" then some [[("path", "/etc/app"), ("size", "10")]]
      else if s == "EMPTY" then some []
      else none
    discover_all ch parseRows (fun _ => none) (.ok ()) =
      { files := [[("path", "/etc/app"), ("size", "10")]], users := [], services := [],
        databases := [("mysql", []), ("postgresql", []), ("mongodb", [])],
        cron_jobs := [], env_vars := [],
        network_traffic := some networkBaseline } := by
  exact discover_all_category_failure_isolated
    (fun cmd =>
      if cmd == "osqueryi --json " ++ users_query then .ok "oops not json"
      else if cmd == "osqueryi --json " ++ files_query then .ok "FILES"
      else .ok "EMPTY")
    (fun s =>
      if s == "FILES" then some [[("path", "/etc/app"), ("size", "10")]]
      else if s == "EMPTY" then some []
      else none)
    (fun _ => none) (.ok ())
    [[("path", "/etc/app"), ("size", "10")]] [] [] [] "oops not json"
    (by rfl) (by rfl) (by rfl) (by rfl) (by rfl) (by rfl) rfl

/-! ## Theorems about the env-var name heuristic (C4) -/

/-- Whether a dlp record carries a CREDENTIAL signal: either the name-based
record shape (`type = CREDENTIAL`) or a CREDENTIAL entity among its content
findings. -/
def recContainsCredential (r : DlpRecord) : Bool :=
  r.ty == some "CREDENTIAL" || (r.findings.getD []).any (fun f => f.entity_type == "CREDENTIAL")

/-- Scanning an env-var row whose `ENV:` key differs from `key` does not
change the entry at `key`. -/
theorem scan_env_step_preserves (analyze : Analyzer) (dlp : List (String × DlpRecord))
    (v : Row) (key : String)
    (hne : "ENV:" ++ ((dictFind? v "name").getD "") ≠ key) :
    dictFind? (scan_env_step analyze dlp v) key = dictFind? dlp key := by
  unfold scan_env_step
  by_cases h1 : nameSuggestsSensitive ((dictFind? v "name").getD "") <;>
    by_cases h2 : (analyze ((dictFind? v "value").getD "")).isEmpty <;>
    simp [h1, h2, dictFind?_dictInsert_ne _ _ _ _ hne]

/-- Scanning a list of env-var rows none of which has the `ENV:` key `key`
does not change the entry at `key`. -/
theorem scan_env_rows_preserve (analyze : Analyzer) (post : List Row)
    (dlp : List (String × DlpRecord)) (key : String)
    (h : ∀ w ∈ post, "ENV:" ++ ((dictFind? w "name").getD "") ≠ key) :
    dictFind? (post.foldl (scan_env_step analyze) dlp) key = dictFind? dlp key := by
  induction post generalizing dlp with
  | nil => rfl
  | cons w post ih =>
    rw [List.foldl_cons, ih _ (fun x hx => h x (List.mem_cons_of_mem w hx)),
      scan_env_step_preserves _ _ _ _ (h w (List.mem_cons_self w post))]

/-- Scanning an env-var row whose name matches the keyword heuristic and
whose value yields no content findings stores the CREDENTIAL name record. -/
theorem scan_env_step_sets_credential (analyze : Analyzer)
    (dlp : List (String × DlpRecord)) (v : Row)
    (hname : nameSuggestsSensitive ((dictFind? v "name").getD "") = true)
    (hval : analyze ((dictFind? v "value").getD "") = []) :
    dictFind? (scan_env_step analyze dlp v) ("ENV:" ++ ((dictFind? v "name").getD "")) =
      some credentialNameRecord := by
  unfold scan_env_step
  simp [hname, hval, dictFind?_dictInsert_self]

/-- C4 amended: for every environment variable whose name contains
(case-insensitively) one of PASSWORD, KEY, TOKEN, SECRET, CREDENTIAL, *and
whose value yields no content-inspection findings*, the classifier's output
contains the CREDENTIAL name record for that variable (provided no later row
reuses the same name — a later content finding for the same key would
overwrite it, see the counterexample). -/
theorem scan_env_credential_when_value_clean (analyze : Analyzer)
    (pre post : List Row) (v : Row) (acc : List (String × DlpRecord))
    (hname : nameSuggestsSensitive ((dictFind? v "name").getD "") = true)
    (hval : analyze ((dictFind? v "value").getD "") = [])
    (hpost : ∀ w ∈ post,
      "ENV:" ++ ((dictFind? w "name").getD "") ≠ "ENV:" ++ ((dictFind? v "name").getD "")) :
    dictFind? (scan_environment_variables analyze (pre ++ v :: post) acc)
      ("ENV:" ++ ((dictFind? v "name").getD "")) = some credentialNameRecord := by
  unfold scan_environment_variables
  rw [List.foldl_append, List.foldl_cons,
    scan_env_rows_preserve _ _ _ _ hpost,
    scan_env_step_sets_credential _ _ _ hname hval]

/-- Witness for the amended C4: `DB_PASSWORD=hunter2` among other variables,
with a content engine that finds nothing in the value; the CREDENTIAL name
record is present in the output. -/
theorem scan_env_credential_when_value_clean_witness :
    dictFind? (scan_environment_variables (fun _ => [])
        [[("name", "HOME"), ("value", "/root")],
         [("name", "DB_PASSWORD"), ("value", "hunter2")],
         [("name", "LANG"), ("value", "C.UTF-8")]] [])
      ("ENV:" ++ "DB_PASSWORD") = some credentialNameRecord := by
  exact scan_env_credential_when_value_clean (fun _ => [])
    [[("name", "HOME"), ("value", "/root")]]
    [[("name", "LANG"), ("value", "C.UTF-8")]]
    [("name", "DB_PASSWORD"), ("value", "hunter2")] []
    (by decide) rfl (by decide)

/-- C4 counterexample: the claim fails as stated. For the env var
`DB_PASSWORD=jane@example.com`, whose name matches the keyword heuristic, a
content engine that reports an EMAIL_ADDRESS finding in the value makes the
second dict assignment overwrite the CREDENTIAL name record: the output entry
for the variable exists but contains no CREDENTIAL finding, so the forced
CREDENTIAL emission is *not* independent of content inspection. -/
theorem scan_env_credential_overwritten :
    let f : AnFinding := { entity_type := "EMAIL_ADDRESS", start := 0, finish := 16, score := 85/100 }
    let analyze : Analyzer := fun s => if s == "jane@example.com" then [f] else []
    let out := scan_environment_variables analyze
      [[("name", "DB_PASSWORD"), ("value", "jane@example.com")]] []
    nameSuggestsSensitive "DB_PASSWORD" = true ∧
    (dictFind? out "ENV:DB_PASSWORD").map recContainsCredential = some false := by
  decide

/-! ## Theorems about structural preservation (C3) -/

/-- The classified spans of one dlp record. -/
def spanList (rec : DlpRecord) : List (Nat × Nat) :=
  (rec.findings.getD []).map (fun f => (f.start, f.finish))

/-- Whether a position lies inside one of the spans. -/
def inSpans (spans : List (Nat × Nat)) (pos : Nat) : Bool :=
  spans.any (fun sp => sp.1 ≤ pos && pos < sp.2)

/-- The character of `s` at position `pos`, if any. -/
def charAtPos (s : String) (pos : Nat) : Option Char :=
  (s.toList.drop pos).head?

/-- Recording synthetic replacements for one file's findings touches only the
synthetic map and the draw counter: filesystem and discoveries are unchanged. -/
theorem sanitize_file_findings_frame (faker : Nat → String) (fnds : List AnFinding) :
    ∀ st : SanState, (sanitize_file_findings faker fnds st).fs = st.fs ∧
      (sanitize_file_findings faker fnds st).discoveries = st.discoveries := by
  induction fnds with
  | nil => intro st; exact ⟨rfl, rfl⟩
  | cons f fnds ih => intro st; exact ih _

/-- One `sanitize_files` loop iteration leaves every file's content and the
discoveries unchanged: the write puts back exactly the content that was
read. -/
theorem sanitize_files_step_frame (faker : Nat → String) (st : SanState)
    (entry : String × DlpRecord) (p : String) :
    (sanitize_files_step faker st entry).fs p = st.fs p ∧
    (sanitize_files_step faker st entry).discoveries = st.discoveries := by
  unfold sanitize_files_step
  by_cases hc : !(strStartsWith entry.1 "ENV:") && !(basenameHasDot entry.1)
  · rw [if_pos hc]
    cases hfs : st.fs entry.1 with
    | none => exact ⟨rfl, rfl⟩
    | some content =>
      have hframe := sanitize_file_findings_frame faker ((entry.2).findings.getD []) st
      constructor
      · show (if p == entry.1 then some content
            else (sanitize_file_findings faker ((entry.2).findings.getD []) st).fs p) = st.fs p
        by_cases hp : p == entry.1
        · rw [if_pos hp, (beq_iff_eq (a := p) (b := entry.1)).mp hp, hfs]
        · rw [if_neg hp, hframe.1]
      · exact hframe.2
  · rw [if_neg hc]; exact ⟨rfl, rfl⟩

theorem sanitize_files_nil (faker : Nat → String) (st : SanState) :
    sanitize_files faker [] st = st := rfl

theorem sanitize_files_cons (faker : Nat → String) (e : String × DlpRecord)
    (dlp : List (String × DlpRecord)) (st : SanState) :
    sanitize_files faker (e :: dlp) st =
      sanitize_files faker dlp (sanitize_files_step faker st e) := rfl

/-- `sanitize_files` leaves every file's content unchanged at every position,
and the discoveries unchanged. -/
theorem sanitize_files_frame (faker : Nat → String) (dlp : List (String × DlpRecord)) :
    ∀ (st : SanState) (p : String),
      (sanitize_files faker dlp st).fs p = st.fs p ∧
      (sanitize_files faker dlp st).discoveries = st.discoveries := by
  induction dlp with
  | nil => intro st p; exact ⟨rfl, rfl⟩
  | cons e dlp ih =>
    intro st p
    have hstep := sanitize_files_step_frame faker st e p
    have hrest := ih (sanitize_files_step faker st e) p
    rw [sanitize_files_cons]
    exact ⟨hrest.1.trans hstep.1, hrest.2.trans hstep.2⟩

/-- C3: for every inventory item, substitution leaves all non-content fields
(the id, size, mode and timestamp metadata held in the discoveries rows)
unchanged, and every payload position outside the classified content spans is
unchanged. (In this source the write-back puts back the very content that was
read, so the whole payload — spans included — is in fact unchanged; the
claimed frame property holds a fortiori.) -/
theorem sanitize_files_structural_preservation (faker : Nat → String)
    (dlp : List (String × DlpRecord)) (st : SanState) (path : String) (pos : Nat)
    (hpos : (dictFind? dlp path).all (fun rec => !inSpans (spanList rec) pos) = true) :
    (sanitize_files faker dlp st).discoveries = st.discoveries ∧
    ((sanitize_files faker dlp st).fs path).bind (fun c => charAtPos c pos) =
      (st.fs path).bind (fun c => charAtPos c pos) := by
  have h := sanitize_files_frame faker dlp st path
  exact ⟨h.2, by rw [h.1]⟩

/-- Witness for C3 at a concrete state: one file with an EMAIL finding on
span [8, 24); position 3 lies outside the span and its character — and the
discovery metadata — are unchanged by sanitization. -/
theorem sanitize_files_structural_preservation_witness :
    let faker : Nat → String := fun n => "W" ++ toString n
    let dlp : List (String × DlpRecord) :=
      [("/etc/appconf", { findings := some [{ entity_type := "EMAIL", start := 8, finish := 24, score := 9/10 }] })]
    let st : SanState :=
      { discoveries := { files := [[("path", "/etc/appconf"), ("size", "24"), ("mode", "0644"), ("mtime", "1700000000")]] },
        fs := fun p => if p == "/etc/appconf" then some "contact jane@example.com" else none,
        synthetic_data_map := [], faker_ctr := 0 }
    (sanitize_files faker dlp st).discoveries = st.discoveries ∧
    ((sanitize_files faker dlp st).fs "/etc/appconf").bind (fun c => charAtPos c 3) =
      ((st.fs "/etc/appconf").bind (fun c => charAtPos c 3)) := by
  exact sanitize_files_structural_preservation _ _ _ "/etc/appconf" 3 (by decide)

/-! ## Theorems about the synthetic map (C2) and verification (C1) -/

/-- The text slice of `s` on the span `[a, b)` — the original value a finding
points at. -/
def sliceOf (s : String) (a b : Nat) : String :=
  String.mk ((s.toList.drop a).take (b - a))

/-- An injective Faker draw stream for concrete evaluation: the n-th draw is
`pre` followed by the decimal rendering of `n`. -/
def drawStream (pre : String) : Nat → String := fun n => pre ++ toString n

/-- Concrete input for C2: the file content, two EMAIL findings over spans
with equal original values, and the initial engine state. -/
def c2_content : String := "jane2 abc jane2"

def c2_f1 : AnFinding := { entity_type := "EMAIL", start := 0, finish := 5, score := 9/10 }

def c2_f2 : AnFinding := { entity_type := "EMAIL", start := 10, finish := 15, score := 9/10 }

def c2_state : SanState :=
  { discoveries := {},
    fs := fun p => if p == "/etc/appconf" then some c2_content else none,
    synthetic_data_map := [], faker_ctr := 0 }

/-- C2 fails on this code: the synthetic map is keyed by entity type alone
and a fresh random value is generated per finding, so two findings with equal
`(entity_kind, original value)` receive different synthetic values and the
map entry is overwritten (not append-only). Evaluated with the injective
draw stream `n ↦ "R" ++ n`: processing the first EMAIL finding stores
`R0`, processing both overwrites it with `R1`. -/
theorem synthetic_map_overwritten_per_kind :
    (c2_f1.entity_type = c2_f2.entity_type ∧
      sliceOf c2_content c2_f1.start c2_f1.finish = sliceOf c2_content c2_f2.start c2_f2.finish) ∧
    (sanitize_file_findings (drawStream "R") [c2_f1] c2_state).synthetic_data_map = [("EMAIL", "R0")] ∧
    (sanitize_file_findings (drawStream "R") [c2_f1, c2_f2] c2_state).synthetic_data_map = [("EMAIL", "R1")] ∧
    ("R0" : String) ≠ "R1" ∧
    (sanitize_files (drawStream "R") [("/etc/appconf", { findings := some [c2_f1, c2_f2] })] c2_state).synthetic_data_map
      = [("EMAIL", "R1")] := by
  decide

/-- Concrete input for C1: a discovered file whose content still carries an
email address after sanitization, the analyzer that reports it at confidence
9/10, and the initial engine state. -/
def c1_content : String := "contact jane@example.com"

def c1_residual : AnFinding :=
  { entity_type := "EMAIL_ADDRESS", start := 8, finish := 24, score := 9/10 }

def c1_analyze : Analyzer := fun s => if s == c1_content then [c1_residual] else []

def c1_disc : Inventory := { files := [[("path", "/etc/appconf")]] }

def c1_dlp : List (String × DlpRecord) :=
  [("/etc/appconf", { findings := some [c1_residual], file_size := some 24 })]

def c1_state : SanState :=
  { discoveries := c1_disc,
    fs := fun p => if p == "/etc/appconf" then some c1_content else none,
    synthetic_data_map := [], faker_ctr := 0 }

/-- C1 fails on this code: `verify_sanitization` has no failure channel — a
residual finding only appends a warning string — and `sanitize_all` returns
the synthetic map as its success value no matter what the re-scan found.
Evaluated at a run whose re-scan still reports an EMAIL_ADDRESS finding with
confidence 9/10 (≥ a 1/2 threshold): the warning is produced, yet
`sanitize_all` returns exactly the same synthetic map as a run whose re-scan
finds nothing. -/
theorem sanitize_all_residual_still_success :
    verify_sanitization c1_analyze c1_disc.files
      (sanitize_environment_variables (drawStream "F") c1_dlp
        (sanitize_files (drawStream "F") c1_dlp c1_state)).fs =
      ["Still found 1 findings in /etc/appconf"] ∧
    c1_residual.score ≥ 1/2 ∧
    sanitize_all (drawStream "F") c1_analyze c1_dlp (.ok ()) c1_state =
      [("EMAIL_ADDRESS", "SYNTHETIC_EMAIL_ADDRESS_F0")] ∧
    sanitize_all (drawStream "F") (fun _ => []) c1_dlp (.ok ()) c1_state =
      [("EMAIL_ADDRESS", "SYNTHETIC_EMAIL_ADDRESS_F0")] := by
  exact ⟨by decide, by norm_num [c1_residual], by decide, by decide⟩

/-! ## Theorems about the CLI exit code (C5) -/

/-- C5 counterexample: the claim fails as stated. With validation and agent
installation succeeding but a remote channel on which every command raises,
the discovery stage fails hard (`discover_body` is an error), yet `main`
returns exit code 0 and every later stage — provisioning included — still
runs: stage-internal hard errors are swallowed by the drivers and never
reach the exit code. -/
theorem main_exit_zero_despite_discovery_error :
    let ch : Channel := fun _ => .error "connection refused"
    discover_body ch (fun _ => some []) (fun _ => some []) (.ok ()) = .error "connection refused" ∧
    main true true ch (fun _ => some []) (fun _ => some []) (.ok ())
      (fun _ => []) (fun _ => none) (.ok ()) (fun n => "F" ++ toString n) (.ok ()) =
      (0, stage_names) := by
  exact ⟨rfl, by decide⟩

/-- C5 amended: `main` returns exit code 1 exactly when configuration
validation fails or agent installation fails (the only gates); whenever both
succeed it returns exit code 0 and all remaining stages run, regardless of
what happens inside discovery, DLP scanning or sanitization — their
exceptions are swallowed by the stage drivers and are invisible to `main`. -/
theorem main_exit_code_spec (validate_ok install_ok : Bool) (ch : Channel)
    (parseRows : String → Option (List Row)) (parseCat : String → Option Catalog)
    (saveDisc : Except String Unit) (analyze : Analyzer)
    (fs : String → Option String) (saveDlp : Except String Unit)
    (faker : Nat → String) (saveSan : Except String Unit) :
    (validate_ok = false →
      main validate_ok install_ok ch parseRows parseCat saveDisc analyze fs saveDlp faker saveSan =
        (1, stage_names.take 1)) ∧
    (validate_ok = true → install_ok = false →
      main validate_ok install_ok ch parseRows parseCat saveDisc analyze fs saveDlp faker saveSan =
        (1, stage_names.take 2)) ∧
    (validate_ok = true → install_ok = true →
      main validate_ok install_ok ch parseRows parseCat saveDisc analyze fs saveDlp faker saveSan =
        (0, stage_names)) := by
  refine ⟨fun hv => ?_, fun hv hi => ?_, fun hv hi => ?_⟩
  · simp [main, hv]
  · simp [main, hv, hi]
  · simp [main, hv, hi]

/-- Witness for the amended C5 at concrete oracles: a failed validation gives
exit code 1 with only the first stage reached; both gates passing give exit
code 0 with every stage reached. -/
theorem main_exit_code_spec_witness :
    (main false true (fun _ => .ok "") (fun _ => some []) (fun _ => some []) (.ok ())
        (fun _ => []) (fun _ => none) (.ok ()) (fun _ => "F") (.ok ()) =
      (1, stage_names.take 1)) ∧
    (main true true (fun _ => .ok "") (fun _ => some []) (fun _ => some []) (.ok ())
        (fun _ => []) (fun _ => none) (.ok ()) (fun _ => "F") (.ok ()) =
      (0, stage_names)) := by
  constructor
  · exact (main_exit_code_spec false true (fun _ => .ok "") (fun _ => some []) (fun _ => some [])
      (.ok ()) (fun _ => []) (fun _ => none) (.ok ()) (fun _ => "F") (.ok ())).1 rfl
  · exact (main_exit_code_spec true true (fun _ => .ok "") (fun _ => some []) (fun _ => some [])
      (.ok ()) (fun _ => []) (fun _ => none) (.ok ()) (fun _ => "F") (.ok ())).2.2 rfl rfl

/-! ## Theorems about the stage drivers (C10) -/

/-- C10: the three stage drivers never propagate an exception: each is a
total function whose only failure handling is the catch-all that returns the
empty dict, so an erroring stage body yields exactly the value a genuinely
empty run yields. -/
theorem stage_drivers_never_propagate :
    (∀ (ch : Channel) (parseRows : String → Option (List Row))
        (parseCat : String → Option Catalog) (save : Except String Unit) (e : String),
      discover_body ch parseRows parseCat save = .error e →
      discover_all ch parseRows parseCat save = Inventory.empty) ∧
    (∀ (analyze : Analyzer) (fs : String → Option String) (save : Except String Unit)
        (disc : Inventory) (e : String),
      scan_body analyze fs save disc = .error e →
      scan_all analyze fs save disc = []) ∧
    (∀ (faker : Nat → String) (analyze : Analyzer) (dlp : List (String × DlpRecord))
        (st : SanState) (e : String),
      sanitize_all faker analyze dlp (.error e) st = []) ∧
    (∀ (analyze : Analyzer) (fs : String → Option String) (disc : Inventory) (e : String),
      scan_all analyze fs (.error e) disc =
        scan_all analyze fs (.ok ()) Inventory.empty) ∧
    (∀ (faker : Nat → String) (analyze : Analyzer) (st : SanState) (e : String),
      sanitize_all faker analyze [] (.error e) st =
        sanitize_all faker analyze [] (.ok ()) { st with synthetic_data_map := [] }) := by
  refine ⟨fun ch pr pc sv e h => ?_, fun an fs sv d e h => ?_,
    fun fk an dlp st e => ?_, fun an fs d e => ?_, fun fk an st e => ?_⟩
  · simp [discover_all, h]
  · simp [scan_all, h]
  · rfl
  · rfl
  · rfl

/-- Witness for C10: a channel on which every command raises makes
`discover_all` return the empty dict; an erroring findings save makes
`scan_all` return the empty dict. -/
theorem stage_drivers_never_propagate_witness :
    discover_all (fun _ => .error "boom") (fun _ => some []) (fun _ => some []) (.ok ()) =
      Inventory.empty ∧
    scan_all (fun _ => []) (fun _ => none) (.error "disk full") Inventory.empty = [] := by
  constructor
  · exact stage_drivers_never_propagate.1 (fun _ => .error "boom") (fun _ => some [])
      (fun _ => some []) (.ok ()) "boom" rfl
  · exact stage_drivers_never_propagate.2.1 (fun _ => []) (fun _ => none)
      (.error "disk full") Inventory.empty "disk full" rfl

end Cybermorph
